import Mathlib

/-!
Shallow embedding of the Dropbox caching layer of this repository:
`src/unnamed/part_000` (token refresh, cache-aware download with retry,
connection test) and `src/services/dropboxService.js` (the simplified
variant). External effects (the OAuth token endpoint, the Dropbox SDK
calls `filesGetMetadata`, `filesDownload`, `usersGetCurrentAccount`, the
filesystem and the clock) are modelled as explicit state: the pending
responses of each external service are lists consumed in call order, the
cache directory is an association list from file path to contents, and
every externally visible action is recorded in an event trace.
-/

/-- Outcome of one request to the OAuth2 token endpoint
(`axios.post('https://api.dropbox.com/oauth2/token', ...)` in
`src/unnamed/part_000`, `fetch(...)` in `src/services/dropboxService.js`):
either a 2xx response whose JSON body carries `access_token`, or a failure
with an optional HTTP status, a response body and a message. -/
inductive TokenOutcome where
  | ok (access_token : String)
  | err (status : Option Nat) (body : String) (message : String)
deriving Repr, DecidableEq

/-- An error value as thrown in the JavaScript source: `api status tag` is an
error coming from the Dropbox SDK, carrying the HTTP `status` field that the
retry loop inspects (`error.status === 401`) and an identifying tag;
`simple message` is a plain `new Error(message)`, which has no `status`
field. -/
inductive JsError where
  | api (status : Option Nat) (tag : String)
  | simple (message : String)
deriving Repr, DecidableEq

/-- Reads the `status` field of a thrown error; a plain `Error` has none
(`undefined` in JavaScript). -/
def JsError.status : JsError → Option Nat
  | .api s _ => s
  | .simple _ => none

/-- Metadata record persisted next to a cached file. `src/unnamed/part_000`
writes `rev`, `server_modified` and `last_updated`;
`src/services/dropboxService.js` writes only `rev` and `server_modified`,
so `last_updated` is optional. -/
structure StoredMeta where
  rev : String
  server_modified : String
  last_updated : Option String
deriving Repr, DecidableEq

/-- Contents of a `.meta.json` sidecar file on disk: either a record that
`JSON.parse` accepts, or corrupt bytes on which `JSON.parse` throws. -/
inductive MetaBlob where
  | valid (m : StoredMeta)
  | corrupt (raw : String)
deriving Repr, DecidableEq

/-- Successful result of `filesDownload`: the binary content plus the
revision metadata. `fileBlob` is the alternative field probed by
`src/services/dropboxService.js` (`response.result.fileBinary ||
response.result.fileBlob || response.result.fileBinary`). -/
structure DownloadResult where
  fileBinary : String
  fileBlob : Option String
  rev : String
  server_modified : String
deriving Repr, DecidableEq

/-- Innermost part of a `usersGetCurrentAccount` response. -/
structure NameInfo where
  display_name : Option String
deriving Repr, DecidableEq

/-- The `result` part of a `usersGetCurrentAccount` response. -/
structure AccountResult where
  name : Option NameInfo
deriving Repr, DecidableEq

/-- Response object of `usersGetCurrentAccount` as the two source files read
it: `src/unnamed/part_000` dereferences `account?.result?.name?.display_name`
while `src/services/dropboxService.js` dereferences
`currentAccount.name.display_name`, so both access paths are modelled. -/
structure AccountResp where
  result : Option AccountResult
  name : Option NameInfo
deriving Repr, DecidableEq

/-- Externally visible actions, recorded in program order. -/
inductive Event where
  | tokenRefreshOk (tok : String)
  | tokenRefreshErr (status : Option Nat) (body : String)
  | metadataQuery (p : String)
  | downloadCall (p : String)
  | writeContent (path content : String)
  | writeMeta (path : String) (m : StoredMeta)
deriving Repr, DecidableEq

/-- Tests whether an event is a `filesDownload` call. -/
def isDownloadEvent : Event → Bool
  | Event.downloadCall _ => true
  | _ => false

/-- Number of `filesDownload` calls in a trace. -/
def countDownloads (t : List Event) : Nat := t.countP isDownloadEvent

/-- Tests whether an event is a token-refresh exchange against the OAuth
endpoint (successful or not). -/
def isRefreshEvent : Event → Bool
  | Event.tokenRefreshOk _ => true
  | Event.tokenRefreshErr _ _ => true
  | _ => false

/-- Number of token-refresh exchanges in a trace. -/
def countRefreshes (t : List Event) : Nat := t.countP isRefreshEvent

/-- Tests whether an event writes to the cache directory. -/
def isWriteEvent : Event → Bool
  | Event.writeContent _ _ => true
  | Event.writeMeta _ _ => true
  | _ => false

/-- Number of cache writes in a trace. -/
def countWrites (t : List Event) : Nat := t.countP isWriteEvent

/-- Lookup in an association list keyed by file path (`fs.existsSync` /
`fs.readFileSync`). -/
def lookupAssoc {α : Type} (l : List (String × α)) (k : String) : Option α :=
  match l with
  | [] => none
  | (k', v) :: rest => if k' = k then some v else lookupAssoc rest k

/-- Overwrite-or-insert in an association list keyed by file path
(`fs.writeFileSync`). -/
def setAssoc {α : Type} (l : List (String × α)) (k : String) (v : α) : List (String × α) :=
  match l with
  | [] => [(k, v)]
  | (k', v') :: rest => if k' = k then (k, v) :: rest else (k', v') :: setAssoc rest k v

/-- JavaScript truthiness of a nullable string: `null`/`undefined` and the
empty string are falsy. -/
def truthyStr : Option String → Bool
  | none => false
  | some s => s != ""

/-- Root for `os.tmpdir()`. The concrete value of the temporary directory is
irrelevant to every claim, so it is fixed. -/
def tmpdir : String := "/tmp"

/-- Embeds `hashString` (`src/unnamed/part_000` lines 73–75 and
`src/services/dropboxService.js` lines 77–79): the SHA-256 hex digest of
the path, computed by the external `crypto` library. The claims depend only
on the digest being a deterministic injective function of the path, so the
library call is modelled by an injective executable encoding. -/
def hashString (s : String) : String := "sha256:" ++ s

/-- Cache directory of `src/unnamed/part_000`:
`path.join(os.tmpdir(), 'dropbox_cache')`. -/
def cacheDir : String := tmpdir ++ "/dropbox_cache"

/-- Local cache file path for a Dropbox path (`src/unnamed/part_000` lines
78–81): `path.join(cacheDir, hashString(dropboxPath))`. -/
def getCacheFilePath (dropboxPath : String) : String :=
  cacheDir ++ "/" ++ hashString dropboxPath

/-- Process state of `src/unnamed/part_000` together with its environment:
the two module-level credential globals, the cache directory contents, the
pending responses of each external service (consumed head-first, one per
call; an exhausted list stands for a network failure with no response), the
clock value used for `new Date().toISOString()`, and the event trace. -/
structure St where
  dbxInstance : Option String
  currentAccessToken : Option String
  files : List (String × String)
  metaFiles : List (String × MetaBlob)
  tokenResponses : List TokenOutcome
  metaResponses : List (Except JsError String)
  accountResponses : List (Except JsError AccountResp)
  downloadResponses : List (Except JsError DownloadResult)
  now : String
  trace : List Event
deriving Repr

/-- Embeds `refreshAccessToken` (`src/unnamed/part_000` lines 27–52): one
POST to the token endpoint; on success stores the returned `access_token`
in `currentAccessToken` and returns it; on failure logs the status and body
and throws `new Error('No se pudo refrescar el token de acceso a Dropbox')`
— a fixed-message error that carries neither of them. -/
def refreshAccessToken (st : St) : Except JsError String × St :=
  match st.tokenResponses with
  | TokenOutcome.ok tok :: rest =>
      (Except.ok tok,
        { st with
            currentAccessToken := some tok,
            tokenResponses := rest,
            trace := st.trace ++ [Event.tokenRefreshOk tok] })
  | TokenOutcome.err s b _ :: rest =>
      (Except.error (JsError.simple "No se pudo refrescar el token de acceso a Dropbox"),
        { st with
            tokenResponses := rest,
            trace := st.trace ++ [Event.tokenRefreshErr s b] })
  | [] =>
      (Except.error (JsError.simple "No se pudo refrescar el token de acceso a Dropbox"),
        { st with trace := st.trace ++ [Event.tokenRefreshErr none ""] })

/-- Embeds `getDropboxInstance` (`src/unnamed/part_000` lines 55–64): if
either global is missing (`!dbxInstance || !currentAccessToken`; the held
client object is falsy only when `null`, the token string also when empty),
refresh the token and rebuild the client bound to the fresh token; then
return the held client. The client is represented by the access token it is
bound to. -/
def getDropboxInstance (st : St) : Except JsError String × St :=
  if st.dbxInstance.isSome && truthyStr st.currentAccessToken then
    (Except.ok (st.dbxInstance.getD ""), st)
  else
    match refreshAccessToken st with
    | (Except.error e, st') => (Except.error e, st')
    | (Except.ok _, st') =>
        (Except.ok (st'.currentAccessToken.getD ""),
          { st' with dbxInstance := st'.currentAccessToken })

/-- Embeds the freshness check of `downloadFile` (`src/unnamed/part_000`
lines 89–102): when both the content file and the sidecar exist, parse the
sidecar, obtain a client, query `filesGetMetadata`, and on a matching
revision return the cached path; every failure inside the `try` is caught
and falls through (result `none`). -/
def checkCache (dropboxPath localPath metaPath : String) (st : St) : Option String × St :=
  if (lookupAssoc st.files localPath).isSome && (lookupAssoc st.metaFiles metaPath).isSome then
    match lookupAssoc st.metaFiles metaPath with
    | some (MetaBlob.valid cachedMeta) =>
        match getDropboxInstance st with
        | (Except.error _, st1) => (none, st1)
        | (Except.ok _, st1) =>
            match st1.metaResponses with
            | Except.ok rev :: rest =>
                let st2 :=
                  { st1 with
                      metaResponses := rest,
                      trace := st1.trace ++ [Event.metadataQuery dropboxPath] }
                if rev = cachedMeta.rev then (some localPath, st2) else (none, st2)
            | Except.error _ :: rest =>
                (none,
                  { st1 with
                      metaResponses := rest,
                      trace := st1.trace ++ [Event.metadataQuery dropboxPath] })
            | [] =>
                (none,
                  { st1 with trace := st1.trace ++ [Event.metadataQuery dropboxPath] })
    | _ => (none, st)
  else (none, st)

/-- One iteration body of the download loop of `downloadFile`
(`src/unnamed/part_000` lines 108–121 and the `catch` that rethrows):
obtain a client, call `filesDownload`, and on success write the content at
`localPath` and then the metadata record (with `last_updated` set to the
current clock) at `metaPath`, returning the local path. -/
def attemptOnce (dropboxPath localPath metaPath : String) (st : St) : Except JsError String × St :=
  match getDropboxInstance st with
  | (Except.error e, st1) => (Except.error e, st1)
  | (Except.ok _, st1) =>
      match st1.downloadResponses with
      | Except.ok res :: rest =>
          let st2 :=
            { st1 with
                downloadResponses := rest,
                trace := st1.trace ++ [Event.downloadCall dropboxPath] }
          let st3 :=
            { st2 with
                files := setAssoc st2.files localPath res.fileBinary,
                trace := st2.trace ++ [Event.writeContent localPath res.fileBinary] }
          let m : StoredMeta :=
            { rev := res.rev, server_modified := res.server_modified,
              last_updated := some st3.now }
          let st4 :=
            { st3 with
                metaFiles := setAssoc st3.metaFiles metaPath (MetaBlob.valid m),
                trace := st3.trace ++ [Event.writeMeta metaPath m] }
          (Except.ok localPath, st4)
      | Except.error e :: rest =>
          (Except.error e,
            { st1 with
                downloadResponses := rest,
                trace := st1.trace ++ [Event.downloadCall dropboxPath] })
      | [] =>
          (Except.error (JsError.simple "network"),
            { st1 with trace := st1.trace ++ [Event.downloadCall dropboxPath] })

/-- Embeds the retry loop of `downloadFile` (`src/unnamed/part_000` lines
105–137), with `fuel` the number of attempts still available (initially
`maxRetries`; the loop variable satisfies `attempt < maxRetries` exactly
when the remaining fuel after this attempt is nonzero). On a caught error
with `status === 401` and attempts remaining, both credential globals are
nulled and the loop continues; any other caught error breaks, and after the
loop the last error (or a generic `Error` when none was captured) is
thrown. -/
def dlLoop (dropboxPath localPath metaPath : String) (fuel : Nat)
    (lastError : Option JsError) (st : St) : Except JsError String × St :=
  match fuel with
  | 0 =>
      (Except.error (lastError.getD (JsError.simple "Error desconocido al descargar archivo")), st)
  | Nat.succ fuel' =>
      match attemptOnce dropboxPath localPath metaPath st with
      | (Except.ok p, st') => (Except.ok p, st')
      | (Except.error e, st') =>
          if e.status = some 401 ∧ fuel' ≠ 0 then
            dlLoop dropboxPath localPath metaPath fuel' (some e)
              { st' with dbxInstance := none, currentAccessToken := none }
          else
            (Except.error e, st')

/-- Embeds `downloadFile` (`src/unnamed/part_000` lines 84–138): derive the
cache paths, run the freshness check, and either return the cached path or
fall through to the bounded retry loop. The JavaScript default for
`maxRetries` is 3. -/
def downloadFile (dropboxPath : String) (maxRetries : Nat) (st : St) : Except JsError String × St :=
  let localPath := getCacheFilePath dropboxPath
  let metaPath := localPath ++ ".meta.json"
  match checkCache dropboxPath localPath metaPath st with
  | (some p, st1) => (Except.ok p, st1)
  | (none, st1) => dlLoop dropboxPath localPath metaPath maxRetries none st1

/-- Reads `account?.result?.name?.display_name` with JavaScript truthiness
(`src/unnamed/part_000` line 146). -/
def displayNameTruthy (a : AccountResp) : Bool :=
  match a.result with
  | some r =>
      match r.name with
      | some n => truthyStr n.display_name
      | none => false
  | none => false

/-- Embeds `testConnection` (`src/unnamed/part_000` lines 141–155): obtain a
client, call `usersGetCurrentAccount`, return `true` when the response has
a truthy `result.name.display_name`; every failure (including the locally
thrown `Error('Respuesta inesperada de la API')`) is caught and yields
`false`. -/
def testConnection (st : St) : Bool × St :=
  match getDropboxInstance st with
  | (Except.error _, st1) => (false, st1)
  | (Except.ok _, st1) =>
      match st1.accountResponses with
      | Except.ok acct :: rest =>
          let st2 :=
            { st1 with accountResponses := rest }
          if displayNameTruthy acct then (true, st2) else (false, st2)
      | Except.error _ :: rest => (false, { st1 with accountResponses := rest })
      | [] => (false, st1)

/-- Cache directory of `src/services/dropboxService.js`:
`path.join(os.tmpdir(), 'ijcvwabot_dropbox_cache')`. -/
def svcCacheDir : String := tmpdir ++ "/ijcvwabot_dropbox_cache"

/-- Local cache file path used by `src/services/dropboxService.js`
(lines 86–89). -/
def svcGetCacheFilePath (dropboxPath : String) : String :=
  svcCacheDir ++ "/" ++ hashString dropboxPath

/-- Process state of `src/services/dropboxService.js` together with its
environment, analogous to `St`: a single module-level `dbx` client global,
its own cache directory contents, and the pending external responses. -/
structure SvcSt where
  dbx : Option String
  files : List (String × String)
  metaFiles : List (String × MetaBlob)
  tokenResponses : List TokenOutcome
  accountResponses : List (Except JsError AccountResp)
  metaResponses : List (Except JsError String)
  downloadResponses : List (Except JsError DownloadResult)
  trace : List Event
deriving Repr

/-- Embeds `getDropboxInstance` of `src/services/dropboxService.js` (lines
18–64): return the held client if any; otherwise exchange the refresh token
(a non-ok response throws an `Error` whose message embeds the response
text), construct and store the client, then probe the connection with
`usersGetCurrentAccount` — a failing probe is rethrown (after the client
global was already assigned), while a response without
`name.display_name` only logs a warning. -/
def svcGetDropboxInstance (st : SvcSt) : Except JsError String × SvcSt :=
  match st.dbx with
  | some d => (Except.ok d, st)
  | none =>
      match st.tokenResponses with
      | TokenOutcome.ok tok :: rest =>
          let st1 :=
            { st with
                dbx := some tok,
                tokenResponses := rest,
                trace := st.trace ++ [Event.tokenRefreshOk tok] }
          match st1.accountResponses with
          | Except.ok _ :: arest =>
              (Except.ok tok, { st1 with accountResponses := arest })
          | Except.error e :: arest =>
              (Except.error e, { st1 with accountResponses := arest })
          | [] => (Except.error (JsError.simple "network"), st1)
      | TokenOutcome.err s body _ :: rest =>
          (Except.error (JsError.simple ("Failed to refresh access token: " ++ body)),
            { st with
                tokenResponses := rest,
                trace := st.trace ++ [Event.tokenRefreshErr s body] })
      | [] =>
          (Except.error (JsError.simple "Failed to refresh access token: "),
            { st with trace := st.trace ++ [Event.tokenRefreshErr none ""] })

/-- Embeds the binary selection of `src/services/dropboxService.js` line
122: `response.result.fileBinary || response.result.fileBlob ||
response.result.fileBinary`, with JavaScript truthiness on strings. -/
def svcPickBinary (res : DownloadResult) : String :=
  if res.fileBinary != "" then res.fileBinary
  else
    match res.fileBlob with
    | some b => if b != "" then b else res.fileBinary
    | none => res.fileBinary

/-- Embeds the freshness check of `downloadFile` in
`src/services/dropboxService.js` (lines 102–116), identical in structure to
`checkCache` of `src/unnamed/part_000`. -/
def svcCheckCache (dropboxPath localPath metaPath : String) (st : SvcSt) :
    Option String × SvcSt :=
  if (lookupAssoc st.files localPath).isSome && (lookupAssoc st.metaFiles metaPath).isSome then
    match lookupAssoc st.metaFiles metaPath with
    | some (MetaBlob.valid cachedMeta) =>
        match svcGetDropboxInstance st with
        | (Except.error _, st1) => (none, st1)
        | (Except.ok _, st1) =>
            match st1.metaResponses with
            | Except.ok rev :: rest =>
                let st2 :=
                  { st1 with
                      metaResponses := rest,
                      trace := st1.trace ++ [Event.metadataQuery dropboxPath] }
                if rev = cachedMeta.rev then (some localPath, st2) else (none, st2)
            | Except.error _ :: rest =>
                (none,
                  { st1 with
                      metaResponses := rest,
                      trace := st1.trace ++ [Event.metadataQuery dropboxPath] })
            | [] =>
                (none,
                  { st1 with trace := st1.trace ++ [Event.metadataQuery dropboxPath] })
    | _ => (none, st)
  else (none, st)

/-- Embeds `downloadFile` of `src/services/dropboxService.js` (lines
97–139): freshness check, then a single download attempt — no retry loop.
On success the content is written at the cache path and then a metadata
record with only `rev` and `server_modified` (no `last_updated`); any
download error is logged and rethrown unchanged. -/
def svcDownloadFile (dropboxPath : String) (st : SvcSt) : Except JsError String × SvcSt :=
  let localPath := svcGetCacheFilePath dropboxPath
  let metaPath := localPath ++ ".meta.json"
  match svcCheckCache dropboxPath localPath metaPath st with
  | (some p, st1) => (Except.ok p, st1)
  | (none, st1) =>
      match svcGetDropboxInstance st1 with
      | (Except.error e, st2) => (Except.error e, st2)
      | (Except.ok _, st2) =>
          match st2.downloadResponses with
          | Except.ok res :: rest =>
              let bin := svcPickBinary res
              let st3 :=
                { st2 with
                    downloadResponses := rest,
                    trace := st2.trace ++ [Event.downloadCall dropboxPath] }
              let st4 :=
                { st3 with
                    files := setAssoc st3.files localPath bin,
                    trace := st3.trace ++ [Event.writeContent localPath bin] }
              let m : StoredMeta :=
                { rev := res.rev, server_modified := res.server_modified,
                  last_updated := none }
              let st5 :=
                { st4 with
                    metaFiles := setAssoc st4.metaFiles metaPath (MetaBlob.valid m),
                    trace := st4.trace ++ [Event.writeMeta metaPath m] }
              (Except.ok localPath, st5)
          | Except.error e :: rest =>
              (Except.error e,
                { st2 with
                    downloadResponses := rest,
                    trace := st2.trace ++ [Event.downloadCall dropboxPath] })
          | [] =>
              (Except.error (JsError.simple "network"),
                { st2 with trace := st2.trace ++ [Event.downloadCall dropboxPath] })

/-- Concrete state for exercising the fast path: a warm cache for `/a` at
revision `r1`, held credentials, and a remote that still reports `r1`. -/
def C1exSt : St :=
  { dbxInstance := some "d0", currentAccessToken := some "t0",
    files := [(getCacheFilePath "/a", "blob")],
    metaFiles := [(getCacheFilePath "/a" ++ ".meta.json",
                   MetaBlob.valid { rev := "r1", server_modified := "sm", last_updated := some "lu" })],
    tokenResponses := [], metaResponses := [Except.ok "r1"],
    accountResponses := [], downloadResponses := [], now := "n", trace := [] }

/-- Concrete state for the fall-through theorem: warm cache files for `/a`
but an unparseable sidecar, and a first download response ready. -/
def C2exSt : St :=
  { dbxInstance := some "d0", currentAccessToken := some "t0",
    files := [(getCacheFilePath "/a", "blob")],
    metaFiles := [(getCacheFilePath "/a" ++ ".meta.json", MetaBlob.corrupt "junk")],
    tokenResponses := [], metaResponses := [],
    accountResponses := [],
    downloadResponses := [Except.ok { fileBinary := "new", fileBlob := none,
                                      rev := "r2", server_modified := "sm2" }],
    now := "n", trace := [] }

/-- Cold-cache state with held credentials whose first download response is
a 401 rejection and whose token endpoint will issue `t1`. -/
def C3wSt : St :=
  { dbxInstance := some "d0", currentAccessToken := some "t0",
    files := [], metaFiles := [],
    tokenResponses := [TokenOutcome.ok "t1"],
    metaResponses := [], accountResponses := [],
    downloadResponses := [Except.error (JsError.api (some 401) "expired"),
                          Except.ok { fileBinary := "new", fileBlob := none,
                                      rev := "r2", server_modified := "sm2" }],
    now := "n", trace := [] }

/-- State of `C3wSt` right after its first failed download attempt. -/
def C3wStAfter : St :=
  { C3wSt with
      downloadResponses := [Except.ok { fileBinary := "new", fileBlob := none,
                                        rev := "r2", server_modified := "sm2" }],
      trace := [Event.downloadCall "/a"] }

/-- Same environment trimmed to two attempts for a different path. -/
def C4exSt2 : St :=
  { dbxInstance := some "d0", currentAccessToken := some "t0",
    files := [], metaFiles := [],
    tokenResponses := [TokenOutcome.ok "t1"],
    metaResponses := [], accountResponses := [],
    downloadResponses := [Except.error (JsError.api (some 401) "expired_access_token"),
                          Except.error (JsError.api (some 401) "expired_access_token")],
    now := "n", trace := [] }

/-- Invalidated credential state whose next token exchange fails with
status 500 and body `server_error`. -/
def C7exSt1 : St :=
  { dbxInstance := none, currentAccessToken := none,
    files := [], metaFiles := [],
    tokenResponses := [TokenOutcome.err (some 500) "server_error" "Request failed with status code 500"],
    metaResponses := [], accountResponses := [], downloadResponses := [],
    now := "n", trace := [] }

/-- Invalidated credential state whose next token exchange fails with
status 503 and a different body. -/
def C7exSt2 : St :=
  { dbxInstance := none, currentAccessToken := none,
    files := [], metaFiles := [],
    tokenResponses := [TokenOutcome.err (some 503) "temporarily_unavailable" "Request failed with status code 503"],
    metaResponses := [], accountResponses := [], downloadResponses := [],
    now := "n", trace := [] }

/-- Invalidated credential state whose next token exchange succeeds. -/
def C7wSt : St :=
  { dbxInstance := none, currentAccessToken := none,
    files := [], metaFiles := [],
    tokenResponses := [TokenOutcome.ok "tNew"],
    metaResponses := [], accountResponses := [], downloadResponses := [],
    now := "n", trace := [] }

/-- Cold-cache state for `src/unnamed/part_000` with held credentials and
one successful download response. -/
def C8exSt : St :=
  { dbxInstance := some "d0", currentAccessToken := some "t0",
    files := [], metaFiles := [],
    tokenResponses := [], metaResponses := [], accountResponses := [],
    downloadResponses := [Except.ok { fileBinary := "data", fileBlob := none,
                                      rev := "r1", server_modified := "sm1" }],
    now := "n", trace := [] }

/-- The same environment for `src/services/dropboxService.js`. -/
def C8exSvcSt : SvcSt :=
  { dbx := some "d0", files := [], metaFiles := [],
    tokenResponses := [], accountResponses := [], metaResponses := [],
    downloadResponses := [Except.ok { fileBinary := "data", fileBlob := none,
                                      rev := "r1", server_modified := "sm1" }],
    trace := [] }

/-- Concrete run for the DownloadError claim: cold cache, held credentials,
every download attempt rejected with status 401
(`expired_access_token`), token refreshes succeeding. -/
def C4exSt : St :=
  { dbxInstance := some "d0", currentAccessToken := some "t0",
    files := [], metaFiles := [],
    tokenResponses := [TokenOutcome.ok "t1", TokenOutcome.ok "t2"],
    metaResponses := [], accountResponses := [],
    downloadResponses := [Except.error (JsError.api (some 401) "expired_access_token"),
                          Except.error (JsError.api (some 401) "expired_access_token"),
                          Except.error (JsError.api (some 401) "expired_access_token")],
    now := "n", trace := [] }

/-- Appending traces adds the download counts. -/
theorem countDownloads_append (a b : List Event) :
    countDownloads (a ++ b) = countDownloads a + countDownloads b := by
  simp [countDownloads, List.countP_append]

/-- Appending traces adds the write counts. -/
theorem countWrites_append (a b : List Event) :
    countWrites (a ++ b) = countWrites a + countWrites b := by
  simp [countWrites, List.countP_append]

/-- Appending traces adds the refresh counts. -/
theorem countRefreshes_append (a b : List Event) :
    countRefreshes (a ++ b) = countRefreshes a + countRefreshes b := by
  simp [countRefreshes, List.countP_append]

/-- Unfolds the download counter one event at a time. -/
theorem countDownloads_cons (e : Event) (t : List Event) :
    countDownloads (e :: t) = (if isDownloadEvent e then 1 else 0) + countDownloads t := by
  simp [countDownloads, List.countP_cons]
  omega

/-- Unfolds the write counter one event at a time. -/
theorem countWrites_cons (e : Event) (t : List Event) :
    countWrites (e :: t) = (if isWriteEvent e then 1 else 0) + countWrites t := by
  simp [countWrites, List.countP_cons]
  omega

/-- Unfolds the refresh counter one event at a time. -/
theorem countRefreshes_cons (e : Event) (t : List Event) :
    countRefreshes (e :: t) = (if isRefreshEvent e then 1 else 0) + countRefreshes t := by
  simp [countRefreshes, List.countP_cons]
  omega

/-- Empty traces count zero downloads. -/
theorem countDownloads_nil : countDownloads [] = 0 := rfl

/-- Empty traces count zero writes. -/
theorem countWrites_nil : countWrites [] = 0 := rfl

/-- Empty traces count zero refreshes. -/
theorem countRefreshes_nil : countRefreshes [] = 0 := rfl

/-- Obtaining a client touches neither the cache directory nor the pending
API responses other than the token endpoint, and performs no download and
no write. -/
theorem getDropboxInstance_preserves (st : St) :
    ((getDropboxInstance st).2).files = st.files ∧
    ((getDropboxInstance st).2).metaFiles = st.metaFiles ∧
    ((getDropboxInstance st).2).metaResponses = st.metaResponses ∧
    ((getDropboxInstance st).2).downloadResponses = st.downloadResponses ∧
    countDownloads ((getDropboxInstance st).2).trace = countDownloads st.trace ∧
    countWrites ((getDropboxInstance st).2).trace = countWrites st.trace := by
  unfold getDropboxInstance refreshAccessToken
  by_cases h : (st.dbxInstance.isSome && truthyStr st.currentAccessToken) = true
  · simp [h]
  · simp only [h]
    rcases htk : st.tokenResponses with _ | ⟨tk, rest⟩
    · simp [htk, countDownloads_append, countWrites_append,
            countDownloads_cons, countWrites_cons, countDownloads_nil, countWrites_nil,
            isDownloadEvent, isWriteEvent]
    · cases tk <;>
        simp [htk, countDownloads_append, countWrites_append,
              countDownloads_cons, countWrites_cons, countDownloads_nil, countWrites_nil,
              isDownloadEvent, isWriteEvent]

/-- C1: when the cached content and sidecar both exist, the sidecar parses,
and the remote metadata query succeeds with a revision equal to the cached
one, `downloadFile` returns the cached local path on the fast path: the
only externally visible action besides obtaining a client is the metadata
query — zero download calls, zero cache writes, cache contents unchanged. -/
theorem C1_fast_path (p c cl : String) (meta : StoredMeta)
    (mrest : List (Except JsError String)) (n : Nat) (st : St)
    (hf : lookupAssoc st.files (getCacheFilePath p) = some c)
    (hm : lookupAssoc st.metaFiles (getCacheFilePath p ++ ".meta.json") =
            some (MetaBlob.valid meta))
    (hg : (getDropboxInstance st).1 = Except.ok cl)
    (hr : ((getDropboxInstance st).2).metaResponses = Except.ok meta.rev :: mrest) :
    downloadFile p n st =
      (Except.ok (getCacheFilePath p),
        { (getDropboxInstance st).2 with
            metaResponses := mrest,
            trace := ((getDropboxInstance st).2).trace ++ [Event.metadataQuery p] }) ∧
    ((downloadFile p n st).2).files = st.files ∧
    ((downloadFile p n st).2).metaFiles = st.metaFiles ∧
    countDownloads ((downloadFile p n st).2).trace = countDownloads st.trace ∧
    countWrites ((downloadFile p n st).2).trace = countWrites st.trace := by
  have hpres := getDropboxInstance_preserves st
  rcases hgg : getDropboxInstance st with ⟨r1, st1⟩
  rw [hgg] at hg hr hpres
  subst hg
  have hmain : downloadFile p n st =
      (Except.ok (getCacheFilePath p),
        { st1 with
            metaResponses := mrest,
            trace := st1.trace ++ [Event.metadataQuery p] }) := by
    unfold downloadFile checkCache
    simp only [hf, hm, Option.isSome_some, Bool.and_self, if_true, hgg, hr]
    have hr' : st1.metaResponses = Except.ok meta.rev :: mrest := hr
    rw [hr']
    simp
  have h1 : st1.files = st.files := hpres.1
  have h2 : st1.metaFiles = st.metaFiles := hpres.2.1
  have h5 : countDownloads st1.trace = countDownloads st.trace := hpres.2.2.2.2.1
  have h6 : countWrites st1.trace = countWrites st.trace := hpres.2.2.2.2.2
  refine ⟨hmain, ?_, ?_, ?_, ?_⟩ <;>
    simp [hmain, h1, h2, h5, h6, countDownloads_append, countWrites_append,
          countDownloads_cons, countWrites_cons, countDownloads_nil, countWrites_nil,
          isDownloadEvent, isWriteEvent]

/-- Witness: the fast-path theorem applied to the concrete warm-cache state. -/
theorem C1_fast_path_witness :
    downloadFile "/a" 3 C1exSt =
      (Except.ok (getCacheFilePath "/a"),
        { (getDropboxInstance C1exSt).2 with
            metaResponses := [],
            trace := ((getDropboxInstance C1exSt).2).trace ++ [Event.metadataQuery "/a"] }) ∧
    ((downloadFile "/a" 3 C1exSt).2).files = C1exSt.files ∧
    ((downloadFile "/a" 3 C1exSt).2).metaFiles = C1exSt.metaFiles ∧
    countDownloads ((downloadFile "/a" 3 C1exSt).2).trace = countDownloads C1exSt.trace ∧
    countWrites ((downloadFile "/a" 3 C1exSt).2).trace = countWrites C1exSt.trace :=
  C1_fast_path "/a" "blob" "d0"
    { rev := "r1", server_modified := "sm", last_updated := some "lu" }
    [] 3 C1exSt rfl rfl rfl rfl

/-- C2: when the cached content and sidecar both exist but the freshness
check fails — the sidecar does not parse, obtaining a client fails, or the
remote metadata query returns an error — `downloadFile` never surfaces that
error: it proceeds to the download loop, with the cache contents and the
pending download responses untouched by the check. -/
theorem C2_check_failure_falls_through (p c : String) (mb : MetaBlob) (n : Nat) (st : St)
    (hf : lookupAssoc st.files (getCacheFilePath p) = some c)
    (hm : lookupAssoc st.metaFiles (getCacheFilePath p ++ ".meta.json") = some mb)
    (hfail :
      (∃ raw, mb = MetaBlob.corrupt raw) ∨
      (∃ m e, mb = MetaBlob.valid m ∧ (getDropboxInstance st).1 = Except.error e) ∨
      (∃ m cl me mrest, mb = MetaBlob.valid m ∧ (getDropboxInstance st).1 = Except.ok cl ∧
        ((getDropboxInstance st).2).metaResponses = Except.error me :: mrest)) :
    ∃ st1, downloadFile p n st =
        dlLoop p (getCacheFilePath p) (getCacheFilePath p ++ ".meta.json") n none st1 ∧
      st1.files = st.files ∧ st1.metaFiles = st.metaFiles ∧
      st1.downloadResponses = st.downloadResponses := by
  have hpres := getDropboxInstance_preserves st
  rcases hfail with ⟨raw, hraw⟩ | ⟨m, e, hvalid, hgdi⟩ | ⟨m, cl, me, mrest, hvalid, hgdi, hmr⟩
  · subst hraw
    refine ⟨st, ?_, rfl, rfl, rfl⟩
    unfold downloadFile checkCache
    simp only [hf, hm, Option.isSome_some, Bool.and_self, if_true]
  · subst hvalid
    rcases hgg : getDropboxInstance st with ⟨r1, st1⟩
    rw [hgg] at hgdi hpres
    subst hgdi
    refine ⟨st1, ?_, hpres.1, hpres.2.1, hpres.2.2.2.1⟩
    unfold downloadFile checkCache
    simp only [hf, hm, Option.isSome_some, Bool.and_self, if_true, hgg]
  · subst hvalid
    rcases hgg : getDropboxInstance st with ⟨r1, st1⟩
    rw [hgg] at hgdi hmr hpres
    subst hgdi
    have hmr' : st1.metaResponses = Except.error me :: mrest := hmr
    refine ⟨{ st1 with
                metaResponses := mrest,
                trace := st1.trace ++ [Event.metadataQuery p] }, ?_, ?_, ?_, ?_⟩
    · unfold downloadFile checkCache
      simp only [hf, hm, Option.isSome_some, Bool.and_self, if_true, hgg, hmr']
    · exact hpres.1
    · exact hpres.2.1
    · exact hpres.2.2.2.1

/-- Witness: the fall-through theorem applied to a corrupt-sidecar state. -/
theorem C2_check_failure_falls_through_witness :
    ∃ st1, downloadFile "/a" 3 C2exSt =
        dlLoop "/a" (getCacheFilePath "/a") (getCacheFilePath "/a" ++ ".meta.json") 3 none st1 ∧
      st1.files = C2exSt.files ∧ st1.metaFiles = C2exSt.metaFiles ∧
      st1.downloadResponses = C2exSt.downloadResponses :=
  C2_check_failure_falls_through "/a" "blob" (MetaBlob.corrupt "junk") 3 C2exSt rfl rfl
    (Or.inl ⟨"junk", rfl⟩)

/-- C3: any download attempt rejected with status 401 while attempts
remain clears both credential globals and continues the loop (first
clause); in particular, with held credentials and a cold cache, when the
first attempt fails with 401 and the retry succeeds, `downloadFile`
returns the downloaded local path without surfacing the transient error,
the credential state has been refreshed exactly once (one token-endpoint
exchange, whose token both globals now hold), and the content and metadata
were written. -/
theorem C3_auth_retry_succeeds (p g t1 n0 : String) (res : DownloadResult)
    (tks : List TokenOutcome) (mrs : List (Except JsError String))
    (ars : List (Except JsError AccountResp)) (tr : List Event) :
    (∀ (fuel' : Nat) (e : JsError) (st st' : St) (le : Option JsError),
      e.status = some 401 → fuel' ≠ 0 →
      attemptOnce p (getCacheFilePath p) (getCacheFilePath p ++ ".meta.json") st =
        (Except.error e, st') →
      dlLoop p (getCacheFilePath p) (getCacheFilePath p ++ ".meta.json")
          (fuel' + 1) le st =
        dlLoop p (getCacheFilePath p) (getCacheFilePath p ++ ".meta.json")
          fuel' (some e)
          { st' with dbxInstance := none, currentAccessToken := none }) ∧
    downloadFile p 3
      { dbxInstance := some "d0", currentAccessToken := some "t0",
        files := [], metaFiles := [],
        tokenResponses := TokenOutcome.ok t1 :: tks,
        metaResponses := mrs, accountResponses := ars,
        downloadResponses := [Except.error (JsError.api (some 401) g), Except.ok res],
        now := n0, trace := tr } =
      (Except.ok (getCacheFilePath p),
        { dbxInstance := some t1, currentAccessToken := some t1,
          files := [(getCacheFilePath p, res.fileBinary)],
          metaFiles := [(getCacheFilePath p ++ ".meta.json",
                         MetaBlob.valid { rev := res.rev, server_modified := res.server_modified,
                                          last_updated := some n0 })],
          tokenResponses := tks, metaResponses := mrs, accountResponses := ars,
          downloadResponses := [], now := n0,
          trace := tr ++ [Event.downloadCall p, Event.tokenRefreshOk t1, Event.downloadCall p,
                          Event.writeContent (getCacheFilePath p) res.fileBinary,
                          Event.writeMeta (getCacheFilePath p ++ ".meta.json")
                            { rev := res.rev, server_modified := res.server_modified,
                              last_updated := some n0 }] }) ∧
    countRefreshes
      ((downloadFile p 3
        { dbxInstance := some "d0", currentAccessToken := some "t0",
          files := [], metaFiles := [],
          tokenResponses := TokenOutcome.ok t1 :: tks,
          metaResponses := mrs, accountResponses := ars,
          downloadResponses := [Except.error (JsError.api (some 401) g), Except.ok res],
          now := n0, trace := tr }).2).trace = countRefreshes tr + 1 := by
  have hmain :
      downloadFile p 3
        { dbxInstance := some "d0", currentAccessToken := some "t0",
          files := [], metaFiles := [],
          tokenResponses := TokenOutcome.ok t1 :: tks,
          metaResponses := mrs, accountResponses := ars,
          downloadResponses := [Except.error (JsError.api (some 401) g), Except.ok res],
          now := n0, trace := tr } =
      (Except.ok (getCacheFilePath p),
        { dbxInstance := some t1, currentAccessToken := some t1,
          files := [(getCacheFilePath p, res.fileBinary)],
          metaFiles := [(getCacheFilePath p ++ ".meta.json",
                         MetaBlob.valid { rev := res.rev, server_modified := res.server_modified,
                                          last_updated := some n0 })],
          tokenResponses := tks, metaResponses := mrs, accountResponses := ars,
          downloadResponses := [], now := n0,
          trace := tr ++ [Event.downloadCall p, Event.tokenRefreshOk t1, Event.downloadCall p,
                          Event.writeContent (getCacheFilePath p) res.fileBinary,
                          Event.writeMeta (getCacheFilePath p ++ ".meta.json")
                            { rev := res.rev, server_modified := res.server_modified,
                              last_updated := some n0 }] }) := by
    unfold downloadFile checkCache dlLoop attemptOnce getDropboxInstance refreshAccessToken
    simp [lookupAssoc, setAssoc, truthyStr, JsError.status, dlLoop, attemptOnce,
          getDropboxInstance, refreshAccessToken]
  refine ⟨?_, hmain, ?_⟩
  · intro fuel' e st st' le hstatus hfuel hatt
    rw [show fuel' + 1 = Nat.succ fuel' from rfl]
    simp only [dlLoop]
    rw [hatt]
    simp [hstatus, hfuel]
  · rw [hmain]
    simp [countRefreshes_append, countRefreshes_cons, countRefreshes_nil, isRefreshEvent]

/-- Witness: the retry theorem applied at a concrete 401-then-success run —
the loop step clears both credential globals, and the whole call returns
the downloaded path. -/
theorem C3_auth_retry_succeeds_witness :
    (dlLoop "/a" (getCacheFilePath "/a") (getCacheFilePath "/a" ++ ".meta.json")
        2 none C3wSt =
      dlLoop "/a" (getCacheFilePath "/a") (getCacheFilePath "/a" ++ ".meta.json")
        1 (some (JsError.api (some 401) "expired"))
        { C3wStAfter with dbxInstance := none, currentAccessToken := none }) ∧
    (downloadFile "/a" 3 C3wSt).1 = Except.ok (getCacheFilePath "/a") := by
  have h := C3_auth_retry_succeeds "/a" "expired" "t1" "n"
    { fileBinary := "new", fileBlob := none, rev := "r2", server_modified := "sm2" }
    [] [] [] []
  refine ⟨h.1 1 (JsError.api (some 401) "expired") C3wSt C3wStAfter none rfl
            (by decide) rfl, ?_⟩
  simp only [C3wSt]
  rw [h.2.1]

/-- C4 counterexample: after exhausting all attempts the code throws the
last underlying API error itself (`throw lastError`), not a wrapper: the
thrown value for path `/q7` with 3 attempts is byte-for-byte the raw 401
error from the response list, and it coincides with the value thrown for a
different path `/zz` with a different attempt bound 2 — so the surfaced
error identifies neither the remote path nor the number of attempts, and
no DownloadError wrapping the last error exists. -/
theorem C4_counterexample :
    (downloadFile "/q7" 3 C4exSt).1 =
        Except.error (JsError.api (some 401) "expired_access_token") ∧
    (downloadFile "/zz" 2 C4exSt2).1 =
        Except.error (JsError.api (some 401) "expired_access_token") ∧
    (downloadFile "/q7" 3 C4exSt).1 = (downloadFile "/zz" 2 C4exSt2).1 :=
  ⟨rfl, rfl, rfl⟩

/-- C4 amended: if the download loop exits without success, `downloadFile`
throws the last underlying error itself — the third 401 rejection when all
three attempts fail after exactly three download calls — or the generic
`Error('Error desconocido al descargar archivo')` when no error was
captured because no attempt ran (`maxRetries = 0`); the remote path and
`maxRetries` appear only in a console log, not in the thrown error. -/
theorem C4_amended_throws_last_error (p g1 g2 g3 t1 t2 n0 : String)
    (tks : List TokenOutcome) (mrs : List (Except JsError String))
    (ars : List (Except JsError AccountResp)) (tr : List Event)
    (d1 a1 : Option String) (fs2 : List (String × MetaBlob))
    (drs : List (Except JsError DownloadResult)) :
    (downloadFile p 3
      { dbxInstance := some "d0", currentAccessToken := some "t0",
        files := [], metaFiles := [],
        tokenResponses := TokenOutcome.ok t1 :: TokenOutcome.ok t2 :: tks,
        metaResponses := mrs, accountResponses := ars,
        downloadResponses := [Except.error (JsError.api (some 401) g1),
                              Except.error (JsError.api (some 401) g2),
                              Except.error (JsError.api (some 401) g3)],
        now := n0, trace := tr }).1 = Except.error (JsError.api (some 401) g3) ∧
    countDownloads
      ((downloadFile p 3
        { dbxInstance := some "d0", currentAccessToken := some "t0",
          files := [], metaFiles := [],
          tokenResponses := TokenOutcome.ok t1 :: TokenOutcome.ok t2 :: tks,
          metaResponses := mrs, accountResponses := ars,
          downloadResponses := [Except.error (JsError.api (some 401) g1),
                                Except.error (JsError.api (some 401) g2),
                                Except.error (JsError.api (some 401) g3)],
          now := n0, trace := tr }).2).trace = countDownloads tr + 3 ∧
    downloadFile p 0
      { dbxInstance := d1, currentAccessToken := a1,
        files := [], metaFiles := fs2,
        tokenResponses := tks, metaResponses := mrs, accountResponses := ars,
        downloadResponses := drs, now := n0, trace := tr } =
      (Except.error (JsError.simple "Error desconocido al descargar archivo"),
        { dbxInstance := d1, currentAccessToken := a1,
          files := [], metaFiles := fs2,
          tokenResponses := tks, metaResponses := mrs, accountResponses := ars,
          downloadResponses := drs, now := n0, trace := tr }) := by
  refine ⟨?_, ?_, ?_⟩
  · unfold downloadFile checkCache dlLoop attemptOnce getDropboxInstance refreshAccessToken
    simp [lookupAssoc, truthyStr, JsError.status, dlLoop, attemptOnce,
          getDropboxInstance, refreshAccessToken]
  · unfold downloadFile checkCache dlLoop attemptOnce getDropboxInstance refreshAccessToken
    simp [lookupAssoc, truthyStr, JsError.status, dlLoop, attemptOnce,
          getDropboxInstance, refreshAccessToken,
          countDownloads_append, countDownloads_cons, countDownloads_nil, isDownloadEvent]
  · unfold downloadFile checkCache dlLoop
    simp [lookupAssoc]

/-- C5: a first download attempt rejected with any non-401 status — in
particular the not-found error for a nonexistent remote path — propagates
immediately: exactly one download call is made, no token refresh and no
credential invalidation happen, nothing is written, and the thrown error is
the not-found error itself. -/
theorem C5_notfound_propagates (p g n0 : String) (s : Option Nat)
    (tks : List TokenOutcome) (mrs : List (Except JsError String))
    (ars : List (Except JsError AccountResp))
    (drs : List (Except JsError DownloadResult)) (tr : List Event)
    (hs : s ≠ some 401) :
    downloadFile p 3
      { dbxInstance := some "d0", currentAccessToken := some "t0",
        files := [], metaFiles := [],
        tokenResponses := tks, metaResponses := mrs, accountResponses := ars,
        downloadResponses := Except.error (JsError.api s g) :: drs,
        now := n0, trace := tr } =
      (Except.error (JsError.api s g),
        { dbxInstance := some "d0", currentAccessToken := some "t0",
          files := [], metaFiles := [],
          tokenResponses := tks, metaResponses := mrs, accountResponses := ars,
          downloadResponses := drs, now := n0,
          trace := tr ++ [Event.downloadCall p] }) ∧
    countDownloads (tr ++ [Event.downloadCall p]) = countDownloads tr + 1 ∧
    countRefreshes (tr ++ [Event.downloadCall p]) = countRefreshes tr := by
  refine ⟨?_, ?_, ?_⟩
  · unfold downloadFile checkCache dlLoop attemptOnce getDropboxInstance
    simp [lookupAssoc, truthyStr, JsError.status, hs]
  · simp [countDownloads_append, countDownloads_cons, countDownloads_nil, isDownloadEvent]
  · simp [countRefreshes_append, countRefreshes_cons, countRefreshes_nil, isRefreshEvent]

/-- Witness: the propagation theorem at the concrete not-found status 409
(the status Dropbox uses for `path/not_found`), on a cold cache. -/
theorem C5_notfound_propagates_witness :
    some 409 ≠ some 401 ∧
    downloadFile "/x" 3
      { dbxInstance := some "d0", currentAccessToken := some "t0",
        files := [], metaFiles := [],
        tokenResponses := [], metaResponses := [], accountResponses := [],
        downloadResponses := [Except.error (JsError.api (some 409) "path/not_found")],
        now := "n", trace := [] } =
      (Except.error (JsError.api (some 409) "path/not_found"),
        { dbxInstance := some "d0", currentAccessToken := some "t0",
          files := [], metaFiles := [],
          tokenResponses := [], metaResponses := [], accountResponses := [],
          downloadResponses := [], now := "n",
          trace := [Event.downloadCall "/x"] }) :=
  ⟨by decide,
   (C5_notfound_propagates "/x" "path/not_found" "n" (some 409) [] [] [] [] []
      (by decide)).1⟩

/-- C6: when both cache files exist but the remote revision differs from
the cached one — or the metadata query errs, leaving the check
inconclusive — a succeeding fetch performs exactly one download and
overwrites both cache files, with the content write at the cache path
preceding the metadata write at the sidecar path in the event trace. -/
theorem C6_stale_redownloads (p c n0 : String) (meta : StoredMeta) (res : DownloadResult)
    (mr : Except JsError String)
    (tks : List TokenOutcome) (mrs : List (Except JsError String))
    (ars : List (Except JsError AccountResp))
    (drs : List (Except JsError DownloadResult)) (tr : List Event)
    (hstale : (∃ me, mr = Except.error me) ∨ (∃ rv, mr = Except.ok rv ∧ rv ≠ meta.rev)) :
    downloadFile p 3
      { dbxInstance := some "d0", currentAccessToken := some "t0",
        files := [(getCacheFilePath p, c)],
        metaFiles := [(getCacheFilePath p ++ ".meta.json", MetaBlob.valid meta)],
        tokenResponses := tks, metaResponses := mr :: mrs, accountResponses := ars,
        downloadResponses := Except.ok res :: drs,
        now := n0, trace := tr } =
      (Except.ok (getCacheFilePath p),
        { dbxInstance := some "d0", currentAccessToken := some "t0",
          files := [(getCacheFilePath p, res.fileBinary)],
          metaFiles := [(getCacheFilePath p ++ ".meta.json",
                         MetaBlob.valid { rev := res.rev, server_modified := res.server_modified,
                                          last_updated := some n0 })],
          tokenResponses := tks, metaResponses := mrs, accountResponses := ars,
          downloadResponses := drs, now := n0,
          trace := tr ++ [Event.metadataQuery p, Event.downloadCall p,
                          Event.writeContent (getCacheFilePath p) res.fileBinary,
                          Event.writeMeta (getCacheFilePath p ++ ".meta.json")
                            { rev := res.rev, server_modified := res.server_modified,
                              last_updated := some n0 }] }) ∧
    countDownloads
      (tr ++ [Event.metadataQuery p, Event.downloadCall p,
              Event.writeContent (getCacheFilePath p) res.fileBinary,
              Event.writeMeta (getCacheFilePath p ++ ".meta.json")
                { rev := res.rev, server_modified := res.server_modified,
                  last_updated := some n0 }]) = countDownloads tr + 1 ∧
    countWrites
      (tr ++ [Event.metadataQuery p, Event.downloadCall p,
              Event.writeContent (getCacheFilePath p) res.fileBinary,
              Event.writeMeta (getCacheFilePath p ++ ".meta.json")
                { rev := res.rev, server_modified := res.server_modified,
                  last_updated := some n0 }]) = countWrites tr + 2 := by
  refine ⟨?_, ?_, ?_⟩
  · rcases hstale with ⟨me, hme⟩ | ⟨rv, hrv, hne⟩
    · subst hme
      unfold downloadFile checkCache dlLoop attemptOnce getDropboxInstance
      simp [lookupAssoc, setAssoc, truthyStr]
    · subst hrv
      unfold downloadFile checkCache dlLoop attemptOnce getDropboxInstance
      simp [lookupAssoc, setAssoc, truthyStr, hne]
  · simp [countDownloads_append, countDownloads_cons, countDownloads_nil, isDownloadEvent]
  · simp [countWrites_append, countWrites_cons, countWrites_nil, isWriteEvent]

/-- Witness: the stale-revision theorem with cached revision `r1` and
remote revision `r2`. -/
theorem C6_stale_redownloads_witness :
    (downloadFile "/a" 3
      { dbxInstance := some "d0", currentAccessToken := some "t0",
        files := [(getCacheFilePath "/a", "old")],
        metaFiles := [(getCacheFilePath "/a" ++ ".meta.json",
                       MetaBlob.valid { rev := "r1", server_modified := "sm",
                                        last_updated := some "lu" })],
        tokenResponses := [], metaResponses := [Except.ok "r2"], accountResponses := [],
        downloadResponses := [Except.ok { fileBinary := "new", fileBlob := none,
                                          rev := "r2", server_modified := "sm2" }],
        now := "n", trace := [] }).1 = Except.ok (getCacheFilePath "/a") :=
  congrArg Prod.fst
    ((C6_stale_redownloads "/a" "old" "n"
        { rev := "r1", server_modified := "sm", last_updated := some "lu" }
        { fileBinary := "new", fileBlob := none, rev := "r2", server_modified := "sm2" }
        (Except.ok "r2") [] [] [] [] []
        (Or.inr ⟨"r2", rfl, by decide⟩)).1)

/-- C7 amended: `getDropboxInstance` performs a token-refresh exchange
exactly when no client or no (truthy) token is held: with both held it
returns the existing client with no token request and no state change;
with either missing, one single exchange happens — on success the returned
token is stored and a client bound to it is returned, on endpoint failure
it throws the fixed-message error
`'No se pudo refrescar el token de acceso a Dropbox'`, which carries
neither the endpoint status nor its body (those are only logged), and no
internal retry occurs (exactly one token request is consumed). -/
theorem C7_amended_getClient (st : St) (d t tok : String) (s : Option Nat)
    (b m : String) (rest : List TokenOutcome) :
    (st.dbxInstance = some d → st.currentAccessToken = some t → t ≠ "" →
      getDropboxInstance st = (Except.ok d, st)) ∧
    ((st.dbxInstance.isSome && truthyStr st.currentAccessToken) = false →
      st.tokenResponses = TokenOutcome.ok tok :: rest →
      getDropboxInstance st =
        (Except.ok tok,
          { st with
              dbxInstance := some tok, currentAccessToken := some tok,
              tokenResponses := rest,
              trace := st.trace ++ [Event.tokenRefreshOk tok] })) ∧
    ((st.dbxInstance.isSome && truthyStr st.currentAccessToken) = false →
      st.tokenResponses = TokenOutcome.err s b m :: rest →
      getDropboxInstance st =
        (Except.error (JsError.simple "No se pudo refrescar el token de acceso a Dropbox"),
          { st with
              tokenResponses := rest,
              trace := st.trace ++ [Event.tokenRefreshErr s b] })) := by
  refine ⟨?_, ?_, ?_⟩
  · intro h1 h2 h3
    unfold getDropboxInstance
    simp [h1, h2, truthyStr, h3]
  · intro hcond htk
    unfold getDropboxInstance refreshAccessToken
    simp [hcond, htk]
  · intro hcond htk
    unfold getDropboxInstance refreshAccessToken
    simp [hcond, htk]

/-- C7 counterexample: two token-endpoint failures with different statuses
and different bodies make `getDropboxInstance` throw the identical
fixed-message error, so the surfaced error carries neither the endpoint's
status nor its body — contradicting the claim that the thrown
AuthenticationError carries both for diagnostics. -/
theorem C7_counterexample :
    (getDropboxInstance C7exSt1).1 =
      Except.error (JsError.simple "No se pudo refrescar el token de acceso a Dropbox") ∧
    (getDropboxInstance C7exSt2).1 =
      Except.error (JsError.simple "No se pudo refrescar el token de acceso a Dropbox") ∧
    (getDropboxInstance C7exSt1).1 = (getDropboxInstance C7exSt2).1 :=
  ⟨rfl, rfl, rfl⟩

/-- Witness: the amended theorem's refresh clause at a concrete invalidated
state, storing the fresh token and consuming exactly one token response. -/
theorem C7_amended_getClient_witness :
    getDropboxInstance C7wSt =
      (Except.ok "tNew",
        { C7wSt with
            dbxInstance := some "tNew", currentAccessToken := some "tNew",
            tokenResponses := [],
            trace := [Event.tokenRefreshOk "tNew"] }) :=
  (C7_amended_getClient C7wSt "d" "t" "tNew" none "" "" []).2.1 rfl rfl

/-- C9: when the attempt at `attempt = maxRetries` fails with a 401,
`downloadFile` throws without invalidating the credentials: both globals
keep the values they had going into that final attempt (the token acquired
by the second refresh), exactly two refreshes happened — one per 401 at
`attempt < maxRetries` — and the next `getDropboxInstance` call reuses the
rejected client without any further token exchange. -/
theorem C9_final_401_keeps_credentials (p g1 g2 g3 n0 : String)
    (tks : List TokenOutcome) (mrs : List (Except JsError String))
    (ars : List (Except JsError AccountResp))
    (drs : List (Except JsError DownloadResult)) (tr : List Event) :
    downloadFile p 3
      { dbxInstance := some "d0", currentAccessToken := some "t0",
        files := [], metaFiles := [],
        tokenResponses := TokenOutcome.ok "t1" :: TokenOutcome.ok "t2" :: tks,
        metaResponses := mrs, accountResponses := ars,
        downloadResponses := Except.error (JsError.api (some 401) g1) ::
                             Except.error (JsError.api (some 401) g2) ::
                             Except.error (JsError.api (some 401) g3) :: drs,
        now := n0, trace := tr } =
      (Except.error (JsError.api (some 401) g3),
        { dbxInstance := some "t2", currentAccessToken := some "t2",
          files := [], metaFiles := [],
          tokenResponses := tks, metaResponses := mrs, accountResponses := ars,
          downloadResponses := drs, now := n0,
          trace := tr ++ [Event.downloadCall p, Event.tokenRefreshOk "t1",
                          Event.downloadCall p, Event.tokenRefreshOk "t2",
                          Event.downloadCall p] }) ∧
    getDropboxInstance
      ((downloadFile p 3
        { dbxInstance := some "d0", currentAccessToken := some "t0",
          files := [], metaFiles := [],
          tokenResponses := TokenOutcome.ok "t1" :: TokenOutcome.ok "t2" :: tks,
          metaResponses := mrs, accountResponses := ars,
          downloadResponses := Except.error (JsError.api (some 401) g1) ::
                               Except.error (JsError.api (some 401) g2) ::
                               Except.error (JsError.api (some 401) g3) :: drs,
          now := n0, trace := tr }).2) =
      (Except.ok "t2",
        (downloadFile p 3
          { dbxInstance := some "d0", currentAccessToken := some "t0",
            files := [], metaFiles := [],
            tokenResponses := TokenOutcome.ok "t1" :: TokenOutcome.ok "t2" :: tks,
            metaResponses := mrs, accountResponses := ars,
            downloadResponses := Except.error (JsError.api (some 401) g1) ::
                                 Except.error (JsError.api (some 401) g2) ::
                                 Except.error (JsError.api (some 401) g3) :: drs,
            now := n0, trace := tr }).2) ∧
    countRefreshes
      (tr ++ [Event.downloadCall p, Event.tokenRefreshOk "t1",
              Event.downloadCall p, Event.tokenRefreshOk "t2",
              Event.downloadCall p]) = countRefreshes tr + 2 := by
  have hmain :
      downloadFile p 3
        { dbxInstance := some "d0", currentAccessToken := some "t0",
          files := [], metaFiles := [],
          tokenResponses := TokenOutcome.ok "t1" :: TokenOutcome.ok "t2" :: tks,
          metaResponses := mrs, accountResponses := ars,
          downloadResponses := Except.error (JsError.api (some 401) g1) ::
                               Except.error (JsError.api (some 401) g2) ::
                               Except.error (JsError.api (some 401) g3) :: drs,
          now := n0, trace := tr } =
      (Except.error (JsError.api (some 401) g3),
        { dbxInstance := some "t2", currentAccessToken := some "t2",
          files := [], metaFiles := [],
          tokenResponses := tks, metaResponses := mrs, accountResponses := ars,
          downloadResponses := drs, now := n0,
          trace := tr ++ [Event.downloadCall p, Event.tokenRefreshOk "t1",
                          Event.downloadCall p, Event.tokenRefreshOk "t2",
                          Event.downloadCall p] }) := by
    unfold downloadFile checkCache dlLoop attemptOnce getDropboxInstance refreshAccessToken
    simp [lookupAssoc, truthyStr, JsError.status, dlLoop, attemptOnce,
          getDropboxInstance, refreshAccessToken]
  refine ⟨hmain, ?_, ?_⟩
  · rw [hmain]
    unfold getDropboxInstance
    simp [truthyStr]
  · simp [countRefreshes_append, countRefreshes_cons, countRefreshes_nil, isRefreshEvent]

/-- C10: `testConnection` absorbs every failure and returns a boolean:
`true` exactly when a client is obtained and the `usersGetCurrentAccount`
response carries a truthy `result.name.display_name`; every other outcome
— token refresh failure, account query error, or a response missing that
field — yields `false`. -/
theorem C10_testConnection_iff (st : St) :
    (testConnection st).1 = true ↔
      ((∃ cl, (getDropboxInstance st).1 = Except.ok cl) ∧
       (∃ acct arest, ((getDropboxInstance st).2).accountResponses = Except.ok acct :: arest ∧
          displayNameTruthy acct = true)) := by
  rcases hgg : getDropboxInstance st with ⟨r, st1⟩
  unfold testConnection
  rw [hgg]
  cases r with
  | error e => simp [hgg]
  | ok cl =>
      rcases har : st1.accountResponses with _ | ⟨a, arest⟩
      · simp [hgg, har]
      · cases a with
        | error e2 => simp [hgg, har]
        | ok acct =>
            by_cases hd : displayNameTruthy acct = true
            · simp [hgg, har, hd]
            · simp [hgg, har, hd]

/-- C8 counterexample: on identical failure-free environments the two
implementations do not return the same local file path — `part_000` roots
its cache at `dropbox_cache` while `dropboxService.js` roots it at
`ijcvwabot_dropbox_cache` — so the claimed behavioral equivalence fails at
the very first observable, the returned path. -/
theorem C8_counterexample :
    (downloadFile "/a" 3 C8exSt).1 =
      Except.ok (tmpdir ++ "/dropbox_cache" ++ "/" ++ hashString "/a") ∧
    (svcDownloadFile "/a" C8exSvcSt).1 =
      Except.ok (tmpdir ++ "/ijcvwabot_dropbox_cache" ++ "/" ++ hashString "/a") ∧
    (tmpdir ++ "/dropbox_cache" ++ "/" ++ hashString "/a" : String) ≠
      tmpdir ++ "/ijcvwabot_dropbox_cache" ++ "/" ++ hashString "/a" :=
  ⟨rfl, rfl, by decide⟩

/-- C8 amended: on a failure-free run from a cold cache with held
credentials, the two implementations are equivalent up to the cache root
directory and the extra `last_updated` metadata field: each returns the
path with the same hashed basename under its own root, both store the same
content blob for `p`, and the stored metadata records agree on `rev` and
`server_modified` (`part_000` additionally stamps `last_updated`). -/
theorem C8_amended_equivalence (p n0 : String) (res : DownloadResult)
    (hbin : res.fileBinary ≠ "") :
    downloadFile p 3
      { dbxInstance := some "d0", currentAccessToken := some "t0",
        files := [], metaFiles := [],
        tokenResponses := [], metaResponses := [], accountResponses := [],
        downloadResponses := [Except.ok res], now := n0, trace := [] } =
      (Except.ok (getCacheFilePath p),
        { dbxInstance := some "d0", currentAccessToken := some "t0",
          files := [(getCacheFilePath p, res.fileBinary)],
          metaFiles := [(getCacheFilePath p ++ ".meta.json",
                         MetaBlob.valid { rev := res.rev, server_modified := res.server_modified,
                                          last_updated := some n0 })],
          tokenResponses := [], metaResponses := [], accountResponses := [],
          downloadResponses := [], now := n0,
          trace := [Event.downloadCall p,
                    Event.writeContent (getCacheFilePath p) res.fileBinary,
                    Event.writeMeta (getCacheFilePath p ++ ".meta.json")
                      { rev := res.rev, server_modified := res.server_modified,
                        last_updated := some n0 }] }) ∧
    svcDownloadFile p
      { dbx := some "d0", files := [], metaFiles := [],
        tokenResponses := [], accountResponses := [], metaResponses := [],
        downloadResponses := [Except.ok res], trace := [] } =
      (Except.ok (svcGetCacheFilePath p),
        { dbx := some "d0",
          files := [(svcGetCacheFilePath p, res.fileBinary)],
          metaFiles := [(svcGetCacheFilePath p ++ ".meta.json",
                         MetaBlob.valid { rev := res.rev, server_modified := res.server_modified,
                                          last_updated := none })],
          tokenResponses := [], accountResponses := [], metaResponses := [],
          downloadResponses := [],
          trace := [Event.downloadCall p,
                    Event.writeContent (svcGetCacheFilePath p) res.fileBinary,
                    Event.writeMeta (svcGetCacheFilePath p ++ ".meta.json")
                      { rev := res.rev, server_modified := res.server_modified,
                        last_updated := none }] }) ∧
    getCacheFilePath p = cacheDir ++ "/" ++ hashString p ∧
    svcGetCacheFilePath p = svcCacheDir ++ "/" ++ hashString p := by
  refine ⟨?_, ?_, rfl, rfl⟩
  · unfold downloadFile checkCache dlLoop attemptOnce getDropboxInstance
    simp [lookupAssoc, setAssoc, truthyStr]
  · unfold svcDownloadFile svcCheckCache svcGetDropboxInstance
    simp [lookupAssoc, setAssoc, svcPickBinary, hbin]

/-- Witness: the amended equivalence at a concrete path and download
response with non-empty binary content. -/
theorem C8_amended_equivalence_witness :
    ("data" : String) ≠ "" ∧
    (downloadFile "/a" 3 C8exSt).1 = Except.ok (getCacheFilePath "/a") ∧
    (svcDownloadFile "/a" C8exSvcSt).1 = Except.ok (svcGetCacheFilePath "/a") := by
  have h := C8_amended_equivalence "/a" "n"
    { fileBinary := "data", fileBlob := none, rev := "r1", server_modified := "sm1" }
    (by decide)
  refine ⟨by decide, ?_, ?_⟩
  · simp only [C8exSt]
    rw [h.1]
  · simp only [C8exSvcSt]
    rw [h.2.1]

